import Mathlib

/-
  Verification development for the ai-chat sandbox session / streaming pipeline.

  Shallow embedding of:
  - the object-pool SDK response handling (src/lib/sandbox/object-pool-sdk part of types.ts bundle)
  - the AgentSession lifecycle (hasSandbox / ensureSandbox / releaseSandbox)
  - the pool-variant shell Command Runner polling loop (src/unnamed/part_001, execShell)
  - the SSE Streaming Bridge (src/app/(chat)/api/shell/stream/route.ts)
  - the getShellResult tool (done branch)

  Network calls are modelled by passing their outcomes explicitly: an
  Except String value stands for a promise that either resolves or rejects
  with an error message. Text content (stdout / stderr / logs) is modelled
  as List Char so that length / suffix reasoning is elementary.
-/

namespace AiChat

/-- Sandbox pool item, from SandboxItem in src/lib/sandbox/types.ts. -/
structure SandboxItem where
  execUrl : String
  id : String
deriving DecidableEq, Repr

/-- Successful borrow payload, from SandboxBorrowOutput in src/lib/sandbox/types.ts. -/
structure SandboxBorrowOutput where
  item : SandboxItem
  borrow_token : String
deriving DecidableEq, Repr

/-- Lease handed to callers, from BorrowedSandbox in src/lib/sandbox/types.ts. -/
structure BorrowedSandbox where
  item : SandboxItem
  borrowToken : String
  sessionId : String
deriving DecidableEq, Repr

/-- Async operation reference returned by the pool return endpoint. -/
structure OperationRef where
  operation_id : String
deriving DecidableEq, Repr

/-- Operation status payload returned by the pool operations endpoint. -/
structure OperationStatusOutput where
  status : String
deriving DecidableEq, Repr

/-- A raw HTTP response as seen by the ObjectPoolSdk fetch calls: the ok flag,
the numeric status, the status text and, when ok, the parsed JSON body. -/
structure HttpResponse (α : Type) where
  ok : Bool
  status : Nat
  statusText : String
  body : α
deriving DecidableEq, Repr

/-- ObjectPoolSdk.borrow response handling (object-pool-sdk): a non-ok response
with status 503 raises the pool-exhausted message, any other non-ok response
raises a generic failure, an ok response yields the parsed body. -/
def poolBorrow (resp : HttpResponse SandboxBorrowOutput) :
    Except String SandboxBorrowOutput :=
  if resp.ok = false then
    if resp.status = 503 then
      Except.error "No sandboxes available in the pool"
    else
      Except.error ("Failed to borrow sandbox: " ++ toString resp.status ++ " " ++ resp.statusText)
  else
    Except.ok resp.body

/-- ObjectPoolSdk.return response handling (object-pool-sdk): a non-ok response
with status 403 raises the invalid-token message, any other non-ok response
raises a generic failure, an ok response yields the operation reference. -/
def poolReturn (resp : HttpResponse OperationRef) : Except String OperationRef :=
  if resp.ok = false then
    if resp.status = 403 then
      Except.error "Invalid borrow token - cannot return sandbox"
    else
      Except.error ("Failed to return sandbox: " ++ toString resp.status ++ " " ++ resp.statusText)
  else
    Except.ok resp.body

/-- ObjectPoolSdk.returnAndWait: composes the return call with
waitForOperation on the resulting operation reference. A rejection of the
return call propagates; otherwise the waitForOperation outcome is returned. -/
def returnAndWait (returnResp : HttpResponse OperationRef)
    (waitResult : Except String OperationStatusOutput) :
    Except String OperationStatusOutput :=
  match poolReturn returnResp with
  | Except.error e => Except.error e
  | Except.ok _ => waitResult

/-- In-memory and durable session record, from AgentSessionData
(src/lib/sandbox agent-session). The Date borrowedAt is a Nat timestamp. -/
structure AgentSessionData where
  sessionId : String
  item : Option SandboxItem
  borrowToken : Option String
  borrowedAt : Option Nat
deriving DecidableEq, Repr

/-- AgentSession.hasSandbox: item and borrowToken are both non-null. -/
def hasSandbox (d : AgentSessionData) : Bool :=
  d.item.isSome && d.borrowToken.isSome

/-- The empty session record: the state set up by the AgentSession
constructor when no initial data is supplied, and restored by a successful
releaseSandbox. -/
def emptySessionData (sessionId : String) : AgentSessionData :=
  { sessionId := sessionId, item := none, borrowToken := none, borrowedAt := none }

/-- AgentSession.ensureSandbox. The guard is hasSandbox: when item and
borrowToken are both present the stored lease is returned and no borrow
happens. Otherwise the borrow outcome decides: a rejection propagates with
the data untouched, a success overwrites the record with the new lease and
stamps borrowedAt with the current time. The result is the returned lease
or error, the new session data, and whether borrow was invoked. -/
def ensureSandbox (sessionId : String) (d : AgentSessionData)
    (borrowResult : Except String SandboxBorrowOutput) (now : Nat) :
    Except String BorrowedSandbox × AgentSessionData × Bool :=
  match d.item, d.borrowToken with
  | some item, some token =>
      (Except.ok { item := item, borrowToken := token, sessionId := sessionId }, d, false)
  | _, _ =>
      match borrowResult with
      | Except.error e => (Except.error e, d, true)
      | Except.ok b =>
          (Except.ok { item := b.item, borrowToken := b.borrow_token, sessionId := sessionId },
           { sessionId := sessionId, item := some b.item,
             borrowToken := some b.borrow_token, borrowedAt := some now },
           true)

/-- AgentSession.releaseSandbox. A no-op when hasSandbox is false. Otherwise
the source awaits objectPoolSdk.returnAndWait with no try/catch around it, so
a rejection propagates to the caller and the data field is left untouched;
only on success is the record reset to the empty state. -/
def releaseSandbox (sessionId : String) (d : AgentSessionData)
    (returnOutcome : Except String OperationStatusOutput) :
    Except String Unit × AgentSessionData :=
  if hasSandbox d = false then
    (Except.ok (), d)
  else
    match returnOutcome with
    | Except.error e => (Except.error e, d)
    | Except.ok _ => (Except.ok (), emptySessionData sessionId)

/-- Durable SandboxSession row, as read back by getAgentSession
(src/unnamed/part_001): every lease field is nullable. -/
structure DbSandboxSession where
  sessionId : String
  sandboxId : Option String
  execUrl : Option String
  borrowToken : Option String
  borrowedAt : Option Nat
deriving DecidableEq, Repr

/-- JavaScript truthiness of an optional string: null and the empty string
are falsy. -/
def truthyStr (s : Option String) : Bool :=
  match s with
  | none => false
  | some v => v ≠ ""

/-- getAgentSession (src/unnamed/part_001): initialData for the AgentSession
constructor is built only when sandboxId, execUrl and borrowToken are all
truthy on the stored row; otherwise the constructor falls back to the empty
record. -/
def getAgentSessionInitialData (existing : Option DbSandboxSession) :
    Option AgentSessionData :=
  match existing with
  | none => none
  | some row =>
      if truthyStr row.sandboxId && truthyStr row.execUrl && truthyStr row.borrowToken then
        (match row.sandboxId, row.execUrl, row.borrowToken with
          | some sid, some url, some tok =>
              some { sessionId := row.sessionId,
                     item := some { id := sid, execUrl := url },
                     borrowToken := some tok,
                     borrowedAt := row.borrowedAt }
          | _, _, _ => none)
      else none

/-- AgentSession constructor: uses the supplied initial data when present,
otherwise the empty record. -/
def initialSessionData (sessionId : String) (initialData : Option AgentSessionData) :
    AgentSessionData :=
  initialData.getD (emptySessionData sessionId)

/-- States of one AgentSession instance reachable through the constructor
(as invoked by getAgentSession in src/unnamed/part_001), ensureSandbox and
releaseSandbox, with arbitrary pool outcomes. -/
inductive ReachableSession (sessionId : String) : AgentSessionData → Prop where
  | init (existing : Option DbSandboxSession) :
      ReachableSession sessionId
        (initialSessionData sessionId (getAgentSessionInitialData existing))
  | ensure (d : AgentSessionData) (b : Except String SandboxBorrowOutput) (now : Nat) :
      ReachableSession sessionId d →
      ReachableSession sessionId (ensureSandbox sessionId d b now).2.1
  | release (d : AgentSessionData) (r : Except String OperationStatusOutput) :
      ReachableSession sessionId d →
      ReachableSession sessionId (releaseSandbox sessionId d r).2

/-- One ensureSandbox call per list element: each element supplies the borrow
outcome the pool would give and the current time. Returns the final session
data, the list of call results, and how many times borrow was invoked. -/
def ensureSeq (sessionId : String) (d : AgentSessionData)
    (calls : List (Except String SandboxBorrowOutput × Nat)) :
    AgentSessionData × List (Except String BorrowedSandbox) × Nat :=
  match calls with
  | [] => (d, [], 0)
  | (b, now) :: rest =>
      let step := ensureSandbox sessionId d b now
      let tail := ensureSeq sessionId step.2.1 rest
      (tail.1, step.1 :: tail.2.1, (if step.2.2 then 1 else 0) + tail.2.2)

/-- Exec endpoint response status, from ExecResponse in src/lib/sandbox/types.ts. -/
inductive ExecStatus where
  | started
  | completed
  | error
deriving DecidableEq, Repr

/-- Exec endpoint response, from ExecResponse in src/lib/sandbox/types.ts. -/
structure ExecResponse where
  commandId : String
  status : ExecStatus
  exitCode : Option Int
  errorMsg : Option String
deriving DecidableEq, Repr

/-- Logs endpoint response, from LogsResponse in src/lib/sandbox/types.ts.
The logs text is the accumulated snapshot for the command. -/
structure LogsResponse where
  logs : List Char
  offset : Int
  done : Bool
  exitCode : Option Int
deriving DecidableEq, Repr

/-- Durable ShellStream row (Execution Record), fields from the SQL schema in
src/unnamed/part_000: stdout and stderr default to empty, exitCode and error
to null, done to false. The created and updated timestamps are bookkeeping
not referenced by any claim and are omitted. -/
structure ShellStream where
  id : String
  sessionId : String
  chatId : String
  command : String
  stdout : List Char
  stderr : List Char
  exitCode : Option Int
  error : Option String
  done : Bool
deriving DecidableEq, Repr

/-- One updateShellStream call: each field is either absent (left alone) or
supplies the new value written for that column. -/
structure ShellStreamUpdate where
  stdout : Option (List Char)
  stderr : Option (List Char)
  exitCode : Option Int
  error : Option String
  done : Option Bool
deriving DecidableEq, Repr

/-- An update that touches no field. -/
def ShellStreamUpdate.none : ShellStreamUpdate :=
  { stdout := Option.none, stderr := Option.none, exitCode := Option.none,
    error := Option.none, done := Option.none }

/-- Modelled from the spec: updateShellStream lives in src/lib/db/queries,
which is not under src/. Per the storage schema of the spec it overwrites
exactly the supplied fields of the Execution Record with their new values
and leaves the others untouched; no field of the schema guards the write. -/
def updateShellStream (r : ShellStream) (u : ShellStreamUpdate) : ShellStream :=
  { r with
    stdout := u.stdout.getD r.stdout,
    stderr := u.stderr.getD r.stderr,
    exitCode := (match u.exitCode with | some v => some v | Option.none => r.exitCode),
    error := (match u.error with | some v => some v | Option.none => r.error),
    done := u.done.getD r.done }

/-- Modelled from the spec: createShellStream (src/lib/db/queries, not under
src/) inserts a fresh Execution Record with the schema defaults of
src/unnamed/part_000: empty stdout and stderr, null exitCode and error,
done false. -/
def createShellStream (id sessionId chatId command : String) : ShellStream :=
  { id := id, sessionId := sessionId, chatId := chatId, command := command,
    stdout := [], stderr := [], exitCode := Option.none, error := Option.none,
    done := false }

/-- Folds a sequence of updateShellStream calls over a record. -/
def applyWrites (r : ShellStream) (ws : List ShellStreamUpdate) : ShellStream :=
  ws.foldl updateShellStream r

/-- The terminal write issued by the catch block of the execShell runner
(src/unnamed/part_001): error set to the failure message, done true. -/
def errorDoneWrite (msg : String) : ShellStreamUpdate :=
  { stdout := Option.none, stderr := Option.none, exitCode := Option.none,
    error := some msg, done := some true }

/-- The terminal write issued by the post-loop timeout check of the execShell
runner (src/unnamed/part_001). -/
def timeoutWrite : ShellStreamUpdate :=
  errorDoneWrite "Command timed out"

/-- A stdout-only progress write of the runner polling loop. -/
def stdoutWrite (logs : List Char) : ShellStreamUpdate :=
  { stdout := some logs, stderr := Option.none, exitCode := Option.none,
    error := Option.none, done := Option.none }

/-- The completion write of the runner polling loop: final stdout, the exit
code defaulted to 0 when the backend omitted it, done true. -/
def completeWrite (logs : List Char) (exitCode : Option Int) : ShellStreamUpdate :=
  { stdout := some logs, stderr := Option.none,
    exitCode := some (exitCode.getD 0), error := Option.none, done := some true }

/-- How the runner polling loop of src/unnamed/part_001 exited. -/
inductive LoopExit where
  | completed
  | timedOut
  | raised (msg : String)
deriving DecidableEq, Repr

/-- The while loop of the execShell runner (src/unnamed/part_001 lines
143 to 165). The i-th agentSession.logs call is modelled by trace i (its
resolution or rejection) together with dur i, the milliseconds the awaited
call consumes; each non-final iteration additionally sleeps 500 ms. The loop
checks elapsed < timeoutMs at the top, writes the stdout snapshot when it
changed, and on done writes the completion record and breaks. A rejected
logs call aborts the loop, to be caught by the surrounding catch block.
Returns the updateShellStream calls issued, the elapsed time on exit, and
the way the loop exited. -/
def runnerLoop (timeoutMs : Nat) (trace : Nat → Except String LogsResponse)
    (dur : Nat → Nat) (i : Nat) (elapsed : Nat) (lastStdout : List Char)
    (offset : Int) (acc : List ShellStreamUpdate) :
    List ShellStreamUpdate × Nat × LoopExit :=
  if h : elapsed < timeoutMs then
    match trace i with
    | Except.error e => (acc, elapsed + dur i, LoopExit.raised e)
    | Except.ok r =>
        let elapsed1 := elapsed + dur i
        let acc1 := if r.logs ≠ lastStdout then acc ++ [stdoutWrite r.logs] else acc
        if r.done then
          (acc1 ++ [completeWrite r.logs r.exitCode], elapsed1, LoopExit.completed)
        else
          runnerLoop timeoutMs trace dur (i + 1) (elapsed1 + 500) r.logs r.offset acc1
  else
    (acc, elapsed, LoopExit.timedOut)
termination_by timeoutMs - elapsed
decreasing_by
  omega

/-- The asynchronous body of the execShell tool execute (src/unnamed/part_001
lines 129 to 183), after createShellStream: getAgentSession, then
agentSession.exec, then the polling loop, then the post-loop timeout check
which fires whenever the elapsed time reached the budget, even when the loop
broke on completion. Every rejection is caught and converted into a terminal
errorDoneWrite. Returns the updateShellStream calls issued and the message
the catch block caught, when one was caught. -/
def execShellExecute (timeoutMs : Nat) (sessionRes : Except String Unit)
    (execRes : Except String ExecResponse)
    (trace : Nat → Except String LogsResponse) (dur : Nat → Nat) :
    List ShellStreamUpdate × Option String :=
  match sessionRes with
  | Except.error e => ([errorDoneWrite e], some e)
  | Except.ok _ =>
      match execRes with
      | Except.error e => ([errorDoneWrite e], some e)
      | Except.ok _ =>
          let L := runnerLoop timeoutMs trace dur 0 0 [] (-1) []
          match L.2.2 with
          | LoopExit.raised e => (L.1 ++ [errorDoneWrite e], some e)
          | _ =>
              if timeoutMs ≤ L.2.1 then (L.1 ++ [timeoutWrite], Option.none)
              else (L.1, Option.none)

/-- Server-sent events emitted by the shell stream route
(src/app/(chat)/api/shell/stream/route.ts), one constructor per type
discriminator of the wire protocol. -/
inductive SseEvent where
  | initial (r : ShellStream)
  | stdout (data : List Char)
  | stderr (data : List Char)
  | complete (exitCode : Option Int) (error : Option String)
  | error (msg : String)
  | done
deriving DecidableEq, Repr

/-- One tick of the poll loop of the stream route, on the freshly fetched
record: an stdout event with the suffix past the last seen length when the
stdout length grew, likewise for stderr, each cursor advancing to the new
length when its event fired. Returns the emitted events and both cursors. -/
def pollTick (cur : ShellStream) (lastStdoutLength lastStderrLength : Nat) :
    List SseEvent × Nat × Nat :=
  let stdoutEvents :=
    if lastStdoutLength < cur.stdout.length then
      [SseEvent.stdout (cur.stdout.drop lastStdoutLength)]
    else []
  let lastStdoutLength2 :=
    if lastStdoutLength < cur.stdout.length then cur.stdout.length
    else lastStdoutLength
  let stderrEvents :=
    if lastStderrLength < cur.stderr.length then
      [SseEvent.stderr (cur.stderr.drop lastStderrLength)]
    else []
  let lastStderrLength2 :=
    if lastStderrLength < cur.stderr.length then cur.stderr.length
    else lastStderrLength
  (stdoutEvents ++ stderrEvents, lastStdoutLength2, lastStderrLength2)

/-- The poll loop of the stream route (route.ts lines 77 to 134): while the
poll budget remains, fetch the record (fetch pollCount models the lookup at
that tick, none meaning the record vanished), emit the delta events of the
tick, then on done emit complete and the done sentinel and close, otherwise
schedule the next tick. Budget exhaustion closes silently. -/
def poll (fetch : Nat → Option ShellStream) (maxPolls : Nat)
    (pollCount lastStdoutLength lastStderrLength : Nat) : List SseEvent :=
  if h : pollCount < maxPolls then
    match fetch pollCount with
    | Option.none => [SseEvent.error "Stream not found"]
    | some cur =>
        let t := pollTick cur lastStdoutLength lastStderrLength
        if cur.done then
          t.1 ++ [SseEvent.complete cur.exitCode cur.error, SseEvent.done]
        else
          t.1 ++ poll fetch maxPolls (pollCount + 1) t.2.1 t.2.2
  else []
termination_by maxPolls - pollCount
decreasing_by
  omega

/-- The GET handler of the stream route after auth: a missing record fails
the channel with not-found; otherwise an initial event with the full record
snapshot is emitted, then on an already done record the done sentinel and
the channel closes, else the poll loop runs with a budget of 600 ticks and
cursors seeded from the snapshot lengths. -/
def streamRouteGET (lookup : Option ShellStream)
    (fetch : Nat → Option ShellStream) : Except String (List SseEvent) :=
  match lookup with
  | Option.none => Except.error "Stream not found"
  | some initialStream =>
      Except.ok
        (SseEvent.initial initialStream ::
          (if initialStream.done then [SseEvent.done]
           else poll fetch 600 0 initialStream.stdout.length initialStream.stderr.length))

/-- Output of the getShellResult tool when the record is done
(src/unnamed/part_001 lines 240 to 249). -/
structure ShellResultOutput where
  success : Bool
  streamId : String
  exitCode : Option Int
  stdout : List Char
  stderr : Option (List Char)
  error : Option String
deriving DecidableEq, Repr

/-- The done branch of the getShellResult tool execute: success is the
strict equality of exitCode with 0, stderr and error are passed through with
JavaScript falsy values collapsed to null. -/
def getShellResultDone (stream : ShellStream) : ShellResultOutput :=
  { success := stream.exitCode == some 0,
    streamId := stream.id,
    exitCode := stream.exitCode,
    stdout := stream.stdout,
    stderr := if stream.stderr = [] then Option.none else some stream.stderr,
    error := (match stream.error with
              | some "" => Option.none
              | v => v) }

/-- Outcome of one poll iteration of the getShellResult tool. -/
inductive ShellResultPoll where
  | notFound
  | finished (out : ShellResultOutput)
  | keepPolling
deriving DecidableEq, Repr

/-- One poll iteration of the getShellResult tool: a missing record yields
the not-found failure, a done record yields the result, otherwise the tool
sleeps and polls again. -/
def getShellResultStep (stream : Option ShellStream) : ShellResultPoll :=
  match stream with
  | Option.none => ShellResultPoll.notFound
  | some s =>
      if s.done then ShellResultPoll.finished (getShellResultDone s)
      else ShellResultPoll.keepPolling

/-- A stderr-only progress write, as issued by the Modal runner readStream
helper on a stderr chunk. -/
def stderrWrite (logs : List Char) : ShellStreamUpdate :=
  { stdout := Option.none, stderr := some logs, exitCode := Option.none,
    error := Option.none, done := Option.none }

/-- The readStream helper of the Modal runner (src/lib/ai/tools/exec-shell.ts
lines 187 to 214): each chunk read from the stream is appended to the running
buffer and the whole buffer is written to the record on that field, stdout or
stderr according to the stream. Returns the writes issued and the final
buffer. -/
def readStream (isStdoutStream : Bool) (buffer : List Char)
    (chunks : List (List Char)) : List ShellStreamUpdate × List Char :=
  match chunks with
  | [] => ([], buffer)
  | c :: rest =>
      let b := buffer ++ c
      let tail := readStream isStdoutStream b rest
      ((if isStdoutStream then stdoutWrite b else stderrWrite b) :: tail.1, tail.2)

/-- The final write of the Modal runner on command completion
(exec-shell.ts lines 228 to 234): full stdout and stderr, the exit code from
shell.wait, done true. -/
def modalFinalWrite (fullStdout fullStderr : List Char) (exitCode : Int) :
    ShellStreamUpdate :=
  { stdout := some fullStdout, stderr := some fullStderr,
    exitCode := some exitCode, error := Option.none, done := some true }

/-- The Modal runner execShellInSandboxStreaming (exec-shell.ts lines 84 to
257). The region before the try block (app lookup, image build, volume
lookup, sandbox creation, lines 102 to 129) can reject with no record write
issued, covered only by the caller. Inside the try, the pre-stream steps
(secret loading, whose failures are swallowed by their own inner catches
with no record write, then gh auth and sb.exec) are collapsed into one
outcome; then the two readStream calls run under Promise.all, each writing
its buffer snapshots (the two single-field progress write sequences may
interleave at runtime and are serialised here stdout before stderr, which is
invisible to any property about the terminal write), a rejected read
rejecting the whole phase; then shell.wait resolves the exit code and the
final done write is issued. The catch block converts any rejection of the
try body into an errorDoneWrite with the failure message and rethrows; the
finally terminate call can itself reject, superseding the outcome. Returns
the writes issued and the settled outcome of the returned promise. -/
def execShellInSandboxStreaming (setupRes : Except String Unit)
    (preStreamRes : Except String Unit)
    (stdoutChunks stderrChunks : List (List Char))
    (stdoutReadErr stderrReadErr : Option String)
    (waitRes : Except String Int) (terminateRes : Except String Unit) :
    List ShellStreamUpdate × Except String Int :=
  match setupRes with
  | Except.error e => ([], Except.error e)
  | Except.ok _ =>
      let body : List ShellStreamUpdate × Except String Int :=
        match preStreamRes with
        | Except.error e => ([errorDoneWrite e], Except.error e)
        | Except.ok _ =>
            let outs := readStream true [] stdoutChunks
            let errs := readStream false [] stderrChunks
            let progress := outs.1 ++ errs.1
            match stdoutReadErr with
            | some e => (progress ++ [errorDoneWrite e], Except.error e)
            | Option.none =>
                match stderrReadErr with
                | some e => (progress ++ [errorDoneWrite e], Except.error e)
                | Option.none =>
                    match waitRes with
                    | Except.error e => (progress ++ [errorDoneWrite e], Except.error e)
                    | Except.ok exitCode =>
                        (progress ++ [modalFinalWrite outs.2 errs.2 exitCode],
                         Except.ok exitCode)
      match terminateRes with
      | Except.error te => (body.1, Except.error te)
      | Except.ok _ => body

/-- The execute of the Modal execShell tool starts the runner without
awaiting it and attaches a catch handler (exec-shell.ts lines 339 to 351)
that writes the failure message with done true on any rejection; a resolved
run adds nothing. Takes the settled runner result and returns all writes
issued to the record together with the message the handler caught, if any. -/
def execShellModalExecute (run : List ShellStreamUpdate × Except String Int) :
    List ShellStreamUpdate × Option String :=
  match run.2 with
  | Except.ok _ => (run.1, Option.none)
  | Except.error e => (run.1 ++ [errorDoneWrite e], some e)

/-- Concatenation of the stdout delta payloads of a list of events. -/
def catStdout (evs : List SseEvent) : List Char :=
  evs.foldr (fun e acc => match e with | SseEvent.stdout d => d ++ acc | _ => acc) []

/-- Concatenation of the stderr delta payloads of a list of events. -/
def catStderr (evs : List SseEvent) : List Char :=
  evs.foldr (fun e acc => match e with | SseEvent.stderr d => d ++ acc | _ => acc) []

/-- Whether an event is an stdout delta event. -/
def isStdoutEvent (e : SseEvent) : Bool :=
  match e with | SseEvent.stdout _ => true | _ => false

/-- Whether an event is an stderr delta event. -/
def isStderrEvent (e : SseEvent) : Bool :=
  match e with | SseEvent.stderr _ => true | _ => false

/-- The runner polling loop under a backend that never reports done: the loop
always exits through the while condition with the budget consumed, and every
write it issued on the way is a plain stdout progress write. -/
theorem runnerLoop_no_done (timeoutMs : Nat) (trace : Nat → Except String LogsResponse)
    (dur : Nat → Nat)
    (hok : ∀ j, ∃ r, trace j = Except.ok r ∧ r.done = false) :
    ∀ (i elapsed : Nat) (lastStdout : List Char) (offset : Int)
      (acc : List ShellStreamUpdate),
      (runnerLoop timeoutMs trace dur i elapsed lastStdout offset acc).2.2
        = LoopExit.timedOut ∧
      timeoutMs ≤ (runnerLoop timeoutMs trace dur i elapsed lastStdout offset acc).2.1 ∧
      ∀ u ∈ (runnerLoop timeoutMs trace dur i elapsed lastStdout offset acc).1,
        u ∈ acc ∨ (∃ l, u = stdoutWrite l) := by
  intro i elapsed lastStdout offset acc
  induction i, elapsed, lastStdout, offset, acc using runnerLoop.induct timeoutMs trace dur with
  | case1 i elapsed lastStdout offset acc h e heq =>
      obtain ⟨r, hr, _⟩ := hok i
      rw [hr] at heq
      cases heq
  | case2 i elapsed lastStdout offset acc h r heq hdone =>
      obtain ⟨r2, hr2, hnd⟩ := hok i
      rw [hr2] at heq
      cases heq
      rw [hnd] at hdone
      cases hdone
  | case3 i elapsed lastStdout offset acc h r heq elapsed1 acc1 hdone ih =>
      have hacc : acc1 = if r.logs ≠ lastStdout then acc ++ [stdoutWrite r.logs] else acc := rfl
      have hel : elapsed1 = elapsed + dur i := rfl
      rw [hacc, hel] at ih
      have step : runnerLoop timeoutMs trace dur i elapsed lastStdout offset acc
          = runnerLoop timeoutMs trace dur (i + 1) (elapsed + dur i + 500) r.logs r.offset
              (if r.logs ≠ lastStdout then acc ++ [stdoutWrite r.logs] else acc) := by
        rw [runnerLoop]
        simp only [dif_pos h, heq]
        simp [hdone]
      rw [step]
      refine ⟨ih.1, ih.2.1, ?_⟩
      intro u hu
      rcases ih.2.2 u hu with hin | hl
      · by_cases hc : r.logs = lastStdout
        · simp [hc] at hin
          exact Or.inl hin
        · simp [hc] at hin
          rcases hin with h1 | h2
          · exact Or.inl h1
          · exact Or.inr ⟨r.logs, h2⟩
      · exact Or.inr hl
  | case4 i elapsed lastStdout offset acc h =>
      rw [runnerLoop]
      refine ⟨by simp [h], by simp [h]; omega, ?_⟩
      intro u hu
      simp [h] at hu
      exact Or.inl hu

/-- C1: the claim fails on the code. releaseSandbox awaits returnAndWait with
no try/catch, so when the pool return endpoint answers HTTP 403 (invalid
token) the rejection propagates past the call site and the Session Record is
left fully populated: hasSandbox still returns true afterwards, the record is
not reset to the empty state. -/
theorem C1_releaseSandbox_403_keeps_lease :
    poolReturn { ok := false, status := 403, statusText := "Forbidden",
                 body := { operation_id := "op-1" } }
      = Except.error "Invalid borrow token - cannot return sandbox" ∧
    releaseSandbox "chat-1"
        { sessionId := "chat-1", item := some { execUrl := "http://sb-1.internal", id := "sb-1" },
          borrowToken := some "tok-1", borrowedAt := some 0 }
        (returnAndWait { ok := false, status := 403, statusText := "Forbidden",
                         body := { operation_id := "op-1" } }
          (Except.ok { status := "succeeded" }))
      = (Except.error "Invalid borrow token - cannot return sandbox",
         { sessionId := "chat-1", item := some { execUrl := "http://sb-1.internal", id := "sb-1" },
           borrowToken := some "tok-1", borrowedAt := some 0 }) ∧
    hasSandbox { sessionId := "chat-1",
                 item := some { execUrl := "http://sb-1.internal", id := "sb-1" },
                 borrowToken := some "tok-1", borrowedAt := some 0 } = true :=
  ⟨rfl, rfl, rfl⟩

/-- C2: the claim fails on the code. When the final logs poll resolves with
done at or past the timeout budget (here budget 1000 ms, poll resolving after
1500 ms), the runner writes the completion record with done true, breaks, and
the post-loop timeout check then issues one more write, setting the timed-out
error on the already terminal record. The write list shows a third write after
the done write at index 1, and replaying the writes shows the completed record
(exitCode 0) re-written with the timeout error. -/
theorem C2_runner_writes_after_done :
    (execShellExecute 1000 (Except.ok ())
        (Except.ok { commandId := "cmd-1", status := ExecStatus.started,
                     exitCode := Option.none, errorMsg := Option.none })
        (fun _ => Except.ok { logs := ['h','i'], offset := 3, done := true, exitCode := some 0 })
        (fun _ => 1500)).1
      = [stdoutWrite ['h','i'], completeWrite ['h','i'] (some 0), timeoutWrite] ∧
    (completeWrite ['h','i'] (some 0)).done = some true ∧
    applyWrites (createShellStream "stream-1" "sess-1" "chat-1" "echo hi")
        [stdoutWrite ['h','i'], completeWrite ['h','i'] (some 0), timeoutWrite]
      = { id := "stream-1", sessionId := "sess-1", chatId := "chat-1", command := "echo hi",
          stdout := ['h','i'], stderr := [], exitCode := some 0,
          error := some "Command timed out", done := true } := by
  refine ⟨by simp [execShellExecute, runnerLoop], rfl, by rfl⟩

/-- Helper for C3, pool variant: whenever the part_001 runner body rejects
at any step (session setup, exec call, or any logs poll) the catch block
makes the final write a terminal errorDoneWrite carrying the failure
message, so the Execution Record ends with done true and error set to that
message. -/
theorem execShellExecute_caught_terminal (timeoutMs : Nat)
    (sessionRes : Except String Unit) (execRes : Except String ExecResponse)
    (trace : Nat → Except String LogsResponse) (dur : Nat → Nat)
    (id sid chat cmd : String) (e : String)
    (hcaught : (execShellExecute timeoutMs sessionRes execRes trace dur).2 = some e) :
    (execShellExecute timeoutMs sessionRes execRes trace dur).1.getLast?
        = some (errorDoneWrite e) ∧
    (applyWrites (createShellStream id sid chat cmd)
        (execShellExecute timeoutMs sessionRes execRes trace dur).1).done = true ∧
    (applyWrites (createShellStream id sid chat cmd)
        (execShellExecute timeoutMs sessionRes execRes trace dur).1).error = some e := by
  cases sessionRes with
  | error e0 =>
      simp only [execShellExecute] at hcaught ⊢
      obtain rfl : e0 = e := by injection hcaught
      exact ⟨rfl, rfl, rfl⟩
  | ok u =>
      cases execRes with
      | error e0 =>
          simp only [execShellExecute] at hcaught ⊢
          obtain rfl : e0 = e := by injection hcaught
          exact ⟨rfl, rfl, rfl⟩
      | ok er =>
          simp only [execShellExecute] at hcaught ⊢
          rcases hexit : (runnerLoop timeoutMs trace dur 0 0 [] (-1) []).2.2 with _ | _ | msg
          · rw [hexit] at hcaught
            dsimp only at hcaught
            split at hcaught <;> simp at hcaught
          · rw [hexit] at hcaught
            dsimp only at hcaught
            split at hcaught <;> simp at hcaught
          · rw [hexit] at hcaught
            dsimp only at hcaught ⊢
            obtain rfl : msg = e := by injection hcaught
            refine ⟨List.getLast?_concat _, ?_, ?_⟩
            · simp [applyWrites, List.foldl_append, updateShellStream, errorDoneWrite]
            · simp [applyWrites, List.foldl_append, updateShellStream, errorDoneWrite]

/-- Helper for C3, Modal variant: whenever the settled Modal run rejects
with a message, the attached catch handler makes the final write a terminal
errorDoneWrite carrying that message, so the Execution Record ends with done
true and error set to it. -/
theorem execShellModalExecute_caught_terminal
    (run : List ShellStreamUpdate × Except String Int)
    (id sid chat cmd : String) (e : String)
    (hcaught : (execShellModalExecute run).2 = some e) :
    (execShellModalExecute run).1.getLast? = some (errorDoneWrite e) ∧
    (applyWrites (createShellStream id sid chat cmd)
        (execShellModalExecute run).1).done = true ∧
    (applyWrites (createShellStream id sid chat cmd)
        (execShellModalExecute run).1).error = some e := by
  unfold execShellModalExecute at hcaught ⊢
  rcases hr : run.2 with e0 | v
  · rw [hr] at hcaught
    dsimp only at hcaught ⊢
    obtain rfl : e0 = e := by injection hcaught
    refine ⟨List.getLast?_concat _, ?_, ?_⟩
    · simp [applyWrites, List.foldl_append, updateShellStream, errorDoneWrite]
    · simp [applyWrites, List.foldl_append, updateShellStream, errorDoneWrite]
  · rw [hr] at hcaught
    dsimp only at hcaught
    cases hcaught

/-- C3: in both Command Runner variants, whenever a failure is caught at any
point after the Execution Record was created, the last write issued sets
error to the failure message together with done true, so the replayed record
reaches the terminal state: the pool-variant runner of src/unnamed/part_001
through its execute catch block, and the Modal runner of exec-shell.ts
through its inner catch and the catch handler attached by the execute tool,
which also covers the region before the try block that rejects without any
write of its own. -/
theorem C3_catch_writes_terminal_record :
    (∀ (timeoutMs : Nat) (sessionRes : Except String Unit)
       (execRes : Except String ExecResponse)
       (trace : Nat → Except String LogsResponse) (dur : Nat → Nat)
       (id sid chat cmd e : String),
       (execShellExecute timeoutMs sessionRes execRes trace dur).2 = some e →
       (execShellExecute timeoutMs sessionRes execRes trace dur).1.getLast?
           = some (errorDoneWrite e) ∧
       (applyWrites (createShellStream id sid chat cmd)
           (execShellExecute timeoutMs sessionRes execRes trace dur).1).done = true ∧
       (applyWrites (createShellStream id sid chat cmd)
           (execShellExecute timeoutMs sessionRes execRes trace dur).1).error = some e) ∧
    (∀ (setupRes preStreamRes : Except String Unit)
       (stdoutChunks stderrChunks : List (List Char))
       (stdoutReadErr stderrReadErr : Option String)
       (waitRes : Except String Int) (terminateRes : Except String Unit)
       (id sid chat cmd e : String),
       (execShellModalExecute (execShellInSandboxStreaming setupRes preStreamRes
           stdoutChunks stderrChunks stdoutReadErr stderrReadErr
           waitRes terminateRes)).2 = some e →
       (execShellModalExecute (execShellInSandboxStreaming setupRes preStreamRes
           stdoutChunks stderrChunks stdoutReadErr stderrReadErr
           waitRes terminateRes)).1.getLast? = some (errorDoneWrite e) ∧
       (applyWrites (createShellStream id sid chat cmd)
           (execShellModalExecute (execShellInSandboxStreaming setupRes preStreamRes
               stdoutChunks stderrChunks stdoutReadErr stderrReadErr
               waitRes terminateRes)).1).done = true ∧
       (applyWrites (createShellStream id sid chat cmd)
           (execShellModalExecute (execShellInSandboxStreaming setupRes preStreamRes
               stdoutChunks stderrChunks stdoutReadErr stderrReadErr
               waitRes terminateRes)).1).error = some e) :=
  ⟨fun timeoutMs sessionRes execRes trace dur id sid chat cmd e h =>
     execShellExecute_caught_terminal timeoutMs sessionRes execRes trace dur
       id sid chat cmd e h,
   fun setupRes preStreamRes stdoutChunks stderrChunks stdoutReadErr stderrReadErr
       waitRes terminateRes id sid chat cmd e h =>
     execShellModalExecute_caught_terminal
       (execShellInSandboxStreaming setupRes preStreamRes stdoutChunks stderrChunks
         stdoutReadErr stderrReadErr waitRes terminateRes)
       id sid chat cmd e h⟩

/-- C3 witness: a rejected session setup in the pool variant, and a Modal
run whose sandbox creation rejects before the try block, so the only write
is the one of the attached catch handler. -/
theorem C3_catch_writes_terminal_record_witness :
    (execShellExecute 1000 (Except.error "boom")
        (Except.ok { commandId := "cmd-1", status := ExecStatus.started,
                     exitCode := Option.none, errorMsg := Option.none })
        (fun _ => Except.ok { logs := [], offset := 0, done := false, exitCode := Option.none })
        (fun _ => 0)).2 = some "boom" ∧
    (execShellExecute 1000 (Except.error "boom")
        (Except.ok { commandId := "cmd-1", status := ExecStatus.started,
                     exitCode := Option.none, errorMsg := Option.none })
        (fun _ => Except.ok { logs := [], offset := 0, done := false, exitCode := Option.none })
        (fun _ => 0)).1.getLast? = some (errorDoneWrite "boom") ∧
    (execShellModalExecute (execShellInSandboxStreaming
        (Except.error "sandbox create failed") (Except.ok ()) [] []
        Option.none Option.none (Except.ok 0) (Except.ok ()))).2
      = some "sandbox create failed" ∧
    (execShellModalExecute (execShellInSandboxStreaming
        (Except.error "sandbox create failed") (Except.ok ()) [] []
        Option.none Option.none (Except.ok 0) (Except.ok ()))).1.getLast?
      = some (errorDoneWrite "sandbox create failed") :=
  ⟨rfl,
   (C3_catch_writes_terminal_record.1 1000 (Except.error "boom")
      (Except.ok { commandId := "cmd-1", status := ExecStatus.started,
                   exitCode := Option.none, errorMsg := Option.none })
      (fun _ => Except.ok { logs := [], offset := 0, done := false, exitCode := Option.none })
      (fun _ => 0) "s" "sid" "chat" "cmd" "boom" rfl).1,
   rfl,
   (C3_catch_writes_terminal_record.2
      (Except.error "sandbox create failed") (Except.ok ()) [] []
      Option.none Option.none (Except.ok 0) (Except.ok ())
      "s" "sid" "chat" "cmd" "sandbox create failed" rfl).1⟩

/-- C4: on a session instance that holds a lease (item and borrowToken both
stored), any sequence of ensureSandbox calls leaves the session data
unchanged, invokes borrow zero times (hence at most once), and every call
returns the stored lease. -/
theorem C4_ensureSandbox_idempotent_reuse (sessionId : String) (d : AgentSessionData)
    (item : SandboxItem) (token : String)
    (hitem : d.item = some item) (htok : d.borrowToken = some token)
    (calls : List (Except String SandboxBorrowOutput × Nat)) :
    (ensureSeq sessionId d calls).1 = d ∧
    (ensureSeq sessionId d calls).2.2 = 0 ∧
    ∀ res ∈ (ensureSeq sessionId d calls).2.1,
      res = Except.ok { item := item, borrowToken := token, sessionId := sessionId } := by
  induction calls with
  | nil => exact ⟨rfl, rfl, by intro res h; cases h⟩
  | cons c rest ih =>
      obtain ⟨b, now⟩ := c
      have hstep : ensureSandbox sessionId d b now
          = (Except.ok { item := item, borrowToken := token, sessionId := sessionId },
             d, false) := by
        simp [ensureSandbox, hitem, htok]
      refine ⟨?_, ?_, ?_⟩
      · simp [ensureSeq, hstep, ih.1]
      · simp [ensureSeq, hstep, ih.2.1]
      · intro res hres
        simp [ensureSeq, hstep] at hres
        rcases hres with h1 | h2
        · exact h1
        · exact ih.2.2 res h2

/-- C4 witness: three ensureSandbox calls on a session holding a lease. -/
theorem C4_ensureSandbox_idempotent_reuse_witness :
    ({ sessionId := "chat-1", item := some { execUrl := "http://sb-1.internal", id := "sb-1" },
       borrowToken := some "tok-1", borrowedAt := some 0 } : AgentSessionData).item
      = some { execUrl := "http://sb-1.internal", id := "sb-1" } ∧
    ({ sessionId := "chat-1", item := some { execUrl := "http://sb-1.internal", id := "sb-1" },
       borrowToken := some "tok-1", borrowedAt := some 0 } : AgentSessionData).borrowToken
      = some "tok-1" ∧
    (ensureSeq "chat-1"
        { sessionId := "chat-1", item := some { execUrl := "http://sb-1.internal", id := "sb-1" },
          borrowToken := some "tok-1", borrowedAt := some 0 }
        [(Except.error "x", 1),
         (Except.ok { item := { execUrl := "http://sb-2.internal", id := "sb-2" },
                      borrow_token := "tok-2" }, 2),
         (Except.error "y", 3)]).2.2 = 0 :=
  ⟨rfl, rfl,
   (C4_ensureSandbox_idempotent_reuse "chat-1"
      { sessionId := "chat-1", item := some { execUrl := "http://sb-1.internal", id := "sb-1" },
        borrowToken := some "tok-1", borrowedAt := some 0 }
      { execUrl := "http://sb-1.internal", id := "sb-1" } "tok-1" rfl rfl
      [(Except.error "x", 1),
       (Except.ok { item := { execUrl := "http://sb-2.internal", id := "sb-2" },
                    borrow_token := "tok-2" }, 2),
       (Except.error "y", 3)]).2.1⟩

/-- C5: in every session state reachable through the constructor as invoked
by the repository (getAgentSession), ensureSandbox and releaseSandbox, item
and borrowToken are both null or both non-null, and hasSandbox returns true
exactly when both are non-null. -/
theorem C5_session_record_never_partial (sessionId : String) (d : AgentSessionData)
    (h : ReachableSession sessionId d) :
    d.item.isSome = d.borrowToken.isSome ∧
    (hasSandbox d = true ↔ d.item.isSome = true ∧ d.borrowToken.isSome = true) := by
  refine ⟨?_, by simp [hasSandbox]⟩
  induction h with
  | init existing =>
      cases existing with
      | none => rfl
      | some row =>
          simp only [initialSessionData, getAgentSessionInitialData]
          split
          · split
            · rfl
            · rfl
          · rfl
  | ensure d b now hd ih =>
      unfold ensureSandbox
      split
      · exact ih
      · split
        · exact ih
        · rfl
  | release d r hd ih =>
      unfold releaseSandbox
      split
      · exact ih
      · split
        · exact ih
        · rfl

/-- C5 witness: the freshly constructed session with no stored row. -/
theorem C5_session_record_never_partial_witness :
    ReachableSession "chat-1"
      (initialSessionData "chat-1" (getAgentSessionInitialData Option.none)) ∧
    ((initialSessionData "chat-1" (getAgentSessionInitialData Option.none)).item.isSome
        = (initialSessionData "chat-1" (getAgentSessionInitialData Option.none)).borrowToken.isSome ∧
     (hasSandbox (initialSessionData "chat-1" (getAgentSessionInitialData Option.none)) = true ↔
        (initialSessionData "chat-1" (getAgentSessionInitialData Option.none)).item.isSome = true ∧
        (initialSessionData "chat-1" (getAgentSessionInitialData Option.none)).borrowToken.isSome = true)) :=
  ⟨ReachableSession.init Option.none,
   C5_session_record_never_partial "chat-1" _ (ReachableSession.init Option.none)⟩

/-- C6: when the pool answers borrow with HTTP 503, ensureSandbox on an empty
session fails with the pool-exhausted error and the Session Record stays in
the empty state, with hasSandbox still false. -/
theorem C6_borrow_503_leaves_empty (sessionId : String)
    (resp : HttpResponse SandboxBorrowOutput) (now : Nat)
    (hok : resp.ok = false) (h503 : resp.status = 503) :
    ensureSandbox sessionId (emptySessionData sessionId) (poolBorrow resp) now
      = (Except.error "No sandboxes available in the pool", emptySessionData sessionId, true) ∧
    hasSandbox (ensureSandbox sessionId (emptySessionData sessionId) (poolBorrow resp) now).2.1
      = false := by
  have hb : poolBorrow resp = Except.error "No sandboxes available in the pool" := by
    simp [poolBorrow, hok, h503]
  constructor
  · simp [ensureSandbox, emptySessionData, hb]
  · simp [ensureSandbox, emptySessionData, hb, hasSandbox]

/-- C6 witness: a concrete 503 response. -/
theorem C6_borrow_503_leaves_empty_witness :
    ({ ok := false, status := 503, statusText := "Service Unavailable",
       body := { item := { execUrl := "", id := "" }, borrow_token := "" } }
        : HttpResponse SandboxBorrowOutput).ok = false ∧
    ensureSandbox "chat-1" (emptySessionData "chat-1")
        (poolBorrow { ok := false, status := 503, statusText := "Service Unavailable",
                      body := { item := { execUrl := "", id := "" }, borrow_token := "" } }) 7
      = (Except.error "No sandboxes available in the pool", emptySessionData "chat-1", true) :=
  ⟨rfl,
   (C6_borrow_503_leaves_empty "chat-1"
      { ok := false, status := 503, statusText := "Service Unavailable",
        body := { item := { execUrl := "", id := "" }, borrow_token := "" } } 7 rfl rfl).1⟩

/-- C7: when every logs poll resolves without done, the runner exits the loop
through the timeout budget and issues exactly one terminal write, the
timed-out write: it is the only write carrying done, and the replayed record
ends with done true and the timed-out error message. -/
theorem C7_timeout_write_exactly_once (timeoutMs : Nat)
    (trace : Nat → Except String LogsResponse) (dur : Nat → Nat)
    (er : ExecResponse) (id sid chat cmd : String)
    (hok : ∀ j, ∃ r, trace j = Except.ok r ∧ r.done = false) :
    (execShellExecute timeoutMs (Except.ok ()) (Except.ok er) trace dur).1.filter
        (fun u => u.done == some true) = [timeoutWrite] ∧
    (applyWrites (createShellStream id sid chat cmd)
        (execShellExecute timeoutMs (Except.ok ()) (Except.ok er) trace dur).1).done = true ∧
    (applyWrites (createShellStream id sid chat cmd)
        (execShellExecute timeoutMs (Except.ok ()) (Except.ok er) trace dur).1).error
      = some "Command timed out" := by
  obtain ⟨hexit, hle, hmem⟩ := runnerLoop_no_done timeoutMs trace dur hok 0 0 [] (-1) []
  have hrun : (execShellExecute timeoutMs (Except.ok ()) (Except.ok er) trace dur).1
      = (runnerLoop timeoutMs trace dur 0 0 [] (-1) []).1 ++ [timeoutWrite] := by
    simp only [execShellExecute]
    rw [hexit]
    dsimp only
    rw [if_pos hle]
  have h1 : (runnerLoop timeoutMs trace dur 0 0 [] (-1) []).1.filter
      (fun u => u.done == some true) = [] := by
    rw [List.filter_eq_nil_iff]
    intro u hu
    rcases hmem u hu with h0 | ⟨l, rfl⟩
    · exact absurd h0 (List.not_mem_nil u)
    · simp [stdoutWrite]
  rw [hrun]
  refine ⟨?_, ?_, ?_⟩
  · rw [List.filter_append, h1]
    simp [timeoutWrite, errorDoneWrite]
  · simp [applyWrites, List.foldl_append, updateShellStream, timeoutWrite, errorDoneWrite]
  · simp [applyWrites, List.foldl_append, updateShellStream, timeoutWrite, errorDoneWrite]

/-- C7 witness: a backend whose every poll reports not done. -/
theorem C7_timeout_write_exactly_once_witness :
    (∀ j : Nat, ∃ r : LogsResponse,
        (fun _ : Nat =>
          (Except.ok { logs := ['h'], offset := 1, done := false, exitCode := Option.none }
            : Except String LogsResponse)) j
        = Except.ok r ∧ r.done = false) ∧
    (execShellExecute 1000 (Except.ok ())
        (Except.ok { commandId := "cmd-1", status := ExecStatus.started,
                     exitCode := Option.none, errorMsg := Option.none })
        (fun _ => Except.ok { logs := ['h'], offset := 1, done := false, exitCode := Option.none })
        (fun _ => 0)).1.filter (fun u => u.done == some true) = [timeoutWrite] :=
  ⟨fun _ => ⟨{ logs := ['h'], offset := 1, done := false, exitCode := Option.none }, rfl, rfl⟩,
   (C7_timeout_write_exactly_once 1000
      (fun _ => Except.ok { logs := ['h'], offset := 1, done := false, exitCode := Option.none })
      (fun _ => 0)
      { commandId := "cmd-1", status := ExecStatus.started,
        exitCode := Option.none, errorMsg := Option.none }
      "s" "sid" "chat" "cmd"
      (fun _ => ⟨{ logs := ['h'], offset := 1, done := false, exitCode := Option.none },
                 rfl, rfl⟩)).1⟩

/-- C8: subscribing to a record that is already done yields exactly the
initial event with the full snapshot followed by the done sentinel, with no
stdout, stderr or complete events, after which the channel is closed. -/
theorem C8_subscribe_after_done (r : ShellStream) (fetch : Nat → Option ShellStream)
    (hdone : r.done = true) :
    streamRouteGET (some r) fetch = Except.ok [SseEvent.initial r, SseEvent.done] := by
  simp [streamRouteGET, hdone]

/-- C8 witness: a concrete finished record. -/
theorem C8_subscribe_after_done_witness :
    ({ id := "stream-1", sessionId := "sess-1", chatId := "chat-1", command := "echo hi",
       stdout := ['h','i'], stderr := [], exitCode := some 0, error := Option.none,
       done := true } : ShellStream).done = true ∧
    streamRouteGET
        (some { id := "stream-1", sessionId := "sess-1", chatId := "chat-1",
                command := "echo hi", stdout := ['h','i'], stderr := [],
                exitCode := some 0, error := Option.none, done := true })
        (fun _ => Option.none)
      = Except.ok
          [SseEvent.initial
            { id := "stream-1", sessionId := "sess-1", chatId := "chat-1",
              command := "echo hi", stdout := ['h','i'], stderr := [],
              exitCode := some 0, error := Option.none, done := true },
           SseEvent.done] :=
  ⟨rfl,
   C8_subscribe_after_done
     { id := "stream-1", sessionId := "sess-1", chatId := "chat-1", command := "echo hi",
       stdout := ['h','i'], stderr := [], exitCode := some 0, error := Option.none,
       done := true }
     (fun _ => Option.none) rfl⟩

/-- C9: in one poll tick of the Streaming Bridge, an stdout (resp. stderr)
event is emitted exactly when the field length grew past the cursor, and
when the previously observed value is a prefix of the current one (the take
hypothesis) that value concatenated with the emitted deltas equals the
current field value and the cursor advances to the current length. -/
theorem C9_delta_iff_growth (cur : ShellStream) (seenOut seenErr : List Char) :
    ((pollTick cur seenOut.length seenErr.length).1.any isStdoutEvent = true
      ↔ seenOut.length < cur.stdout.length) ∧
    ((pollTick cur seenOut.length seenErr.length).1.any isStderrEvent = true
      ↔ seenErr.length < cur.stderr.length) ∧
    (cur.stdout.take seenOut.length = seenOut →
      seenOut ++ catStdout (pollTick cur seenOut.length seenErr.length).1 = cur.stdout ∧
      (pollTick cur seenOut.length seenErr.length).2.1 = cur.stdout.length) ∧
    (cur.stderr.take seenErr.length = seenErr →
      seenErr ++ catStderr (pollTick cur seenOut.length seenErr.length).1 = cur.stderr ∧
      (pollTick cur seenOut.length seenErr.length).2.2 = cur.stderr.length) := by
  unfold pollTick
  by_cases hg : seenOut.length < cur.stdout.length <;>
    by_cases he : seenErr.length < cur.stderr.length <;>
      simp [hg, he, isStdoutEvent, isStderrEvent, catStdout, catStderr]
  all_goals constructor
  · intro htake
    conv_rhs => rw [← List.take_append_drop seenOut.length cur.stdout]
    rw [htake]
  · intro htake
    conv_rhs => rw [← List.take_append_drop seenErr.length cur.stderr]
    rw [htake]
  · intro htake
    conv_rhs => rw [← List.take_append_drop seenOut.length cur.stdout]
    rw [htake]
  · intro htake
    have hlen : cur.stderr.length ≤ seenErr.length := Nat.le_of_not_lt he
    rw [List.take_of_length_le hlen] at htake
    simp [htake]
  · intro htake
    have hlen : cur.stdout.length ≤ seenOut.length := Nat.le_of_not_lt hg
    rw [List.take_of_length_le hlen] at htake
    simp [htake]
  · intro htake
    conv_rhs => rw [← List.take_append_drop seenErr.length cur.stderr]
    rw [htake]
  · intro htake
    have hlen : cur.stdout.length ≤ seenOut.length := Nat.le_of_not_lt hg
    rw [List.take_of_length_le hlen] at htake
    simp [htake]
  · intro htake
    have hlen : cur.stderr.length ≤ seenErr.length := Nat.le_of_not_lt he
    rw [List.take_of_length_le hlen] at htake
    simp [htake]

/-- C9 witness: a record whose stdout grew past the observed prefix. -/
theorem C9_delta_iff_growth_witness :
    (({ id := "stream-1", sessionId := "sess-1", chatId := "chat-1", command := "echo hi",
        stdout := ['h','i','x'], stderr := [], exitCode := Option.none, error := Option.none,
        done := false } : ShellStream).stdout.take (['h','i'] : List Char).length
       = ['h','i']) ∧
    (['h','i'] ++ catStdout
        (pollTick
          { id := "stream-1", sessionId := "sess-1", chatId := "chat-1", command := "echo hi",
            stdout := ['h','i','x'], stderr := [], exitCode := Option.none,
            error := Option.none, done := false }
          (['h','i'] : List Char).length (([] : List Char)).length).1
      = ({ id := "stream-1", sessionId := "sess-1", chatId := "chat-1", command := "echo hi",
           stdout := ['h','i','x'], stderr := [], exitCode := Option.none,
           error := Option.none, done := false } : ShellStream).stdout ∧
     (pollTick
          { id := "stream-1", sessionId := "sess-1", chatId := "chat-1", command := "echo hi",
            stdout := ['h','i','x'], stderr := [], exitCode := Option.none,
            error := Option.none, done := false }
          (['h','i'] : List Char).length (([] : List Char)).length).2.1
       = ({ id := "stream-1", sessionId := "sess-1", chatId := "chat-1", command := "echo hi",
            stdout := ['h','i','x'], stderr := [], exitCode := Option.none,
            error := Option.none, done := false } : ShellStream).stdout.length) :=
  ⟨by decide,
   (C9_delta_iff_growth
      { id := "stream-1", sessionId := "sess-1", chatId := "chat-1", command := "echo hi",
        stdout := ['h','i','x'], stderr := [], exitCode := Option.none,
        error := Option.none, done := false }
      ['h','i'] []).2.2.1 (by decide)⟩

/-- C10: on a done record the getShellResult tool reports the finished result
and its success flag is true exactly when exitCode equals 0; the error field
plays no part in the flag, as replacing it by anything leaves success
unchanged. -/
theorem C10_success_iff_exitCode_zero (stream : ShellStream) (hdone : stream.done = true) :
    getShellResultStep (some stream) = ShellResultPoll.finished (getShellResultDone stream) ∧
    ((getShellResultDone stream).success = true ↔ stream.exitCode = some 0) ∧
    (∀ e, (getShellResultDone { stream with error := e }).success
        = (getShellResultDone stream).success) := by
  refine ⟨by simp [getShellResultStep, hdone], ?_, fun e => rfl⟩
  simp [getShellResultDone]

/-- C10 witness: a done record carrying both an error message and exit code
0 is reported as success. -/
theorem C10_success_iff_exitCode_zero_witness :
    ({ id := "stream-1", sessionId := "sess-1", chatId := "chat-1", command := "echo hi",
       stdout := ['h','i'], stderr := [], exitCode := some 0, error := some "boom",
       done := true } : ShellStream).done = true ∧
    (getShellResultDone
        { id := "stream-1", sessionId := "sess-1", chatId := "chat-1", command := "echo hi",
          stdout := ['h','i'], stderr := [], exitCode := some 0, error := some "boom",
          done := true }).success = true :=
  ⟨rfl,
   (C10_success_iff_exitCode_zero
      { id := "stream-1", sessionId := "sess-1", chatId := "chat-1", command := "echo hi",
        stdout := ['h','i'], stderr := [], exitCode := some 0, error := some "boom",
        done := true } rfl).2.1.mpr rfl⟩

end AiChat
